import Mathlib

/-!
Verification development for the stevenb256/log Go repository.

The repository is a process-wide structured event logger.  It contains the
current implementation `log.go` together with three earlier iterations of the
same `package log` file (the unnamed source parts):

* iteration V1 (part_002, lines 1-425): mutex-based, synchronous `writeLog`,
  reflective field renderer with a `log:"hide"` tag, `Trace` entry point;
* iteration V2 (part_002, lines 426-860): buffered channel `_chTrace` plus an
  exit channel `_chExit`; `CloseLog` drains the queue before closing the file;
* `log.go` (and the almost identical third fragment): buffered channel with a
  background consumer; `CloseLog` closes the channel and the file without
  waiting for the consumer.

The definitions below are shallow embeddings of those functions: Go machine
integers are modelled as `Int`/`Nat`, Go `interface{}` payload values as the
inductive `GoVal`, the channel as an explicit FIFO `List`, and the possible
non-return of a call (a goroutine blocked forever on a nil-channel send, or a
panic) as `Option`/a dedicated result type.
-/

/-!
`GoVal` embeds a Go `interface{}` payload value, covering the value kinds the
renderer `writeField` distinguishes.  A struct value carries its type name,
whether the payload is a (non-nil) pointer to the struct, and its fields in
declaration order.  `vnilptr` is a typed nil pointer (a non-nil `interface{}`
whose reflected kind is `Ptr` and whose value `IsNil`); `vnil` is the nil
interface.  `vother` stands for any further value kind the type switch in
`writeField` does not match (maps, slices, floats, ...) and carries the text
that the `fmt` verb `%+v` would print for it.  Go `uint8`, `uint16` and
`uint32` values are all rendered with `%d`, so one constructor `vuint` covers
them; `time.Time` and `uuid.UUID` payloads are outside this embedding (no
claim mentions them).
-/

mutual

/-- Embedding of a Go `interface{}` payload value. -/
inductive GoVal where
  | vnil
  | vnilptr
  | vstr (s : String)
  | vint (n : Int)
  | vuint (n : Nat)
  | vhex (n : Nat)
  | vbool (b : Bool)
  | vdur (ns : Int)
  | verr (msg : String)
  | vstruct (name : String) (isPtr : Bool) (fields : List GoField)
  | vother (goRepr : String)

/-- One struct field as seen by reflection: declared name, whether the field
is exported, the optional value of its `log` struct tag, and its value. -/
inductive GoField where
  | mk (name : String) (exported : Bool) (tag : Option String) (val : GoVal)

end

/-- Field name accessor. -/
def GoField.name : GoField → String
  | .mk n _ _ _ => n

/-- Exported flag accessor. -/
def GoField.exported : GoField → Bool
  | .mk _ e _ _ => e

/-- Tag accessor. -/
def GoField.tag : GoField → Option String
  | .mk _ _ t _ => t

/-- Field value accessor. -/
def GoField.val : GoField → GoVal
  | .mk _ _ _ v => v

/-- Embeds `isInterfaceNil` (identical in the V1 and V2 iterations): an
interface value is nil if it is the nil interface or a nil pointer. -/
def isInterfaceNil : GoVal → Bool
  | .vnil => true
  | .vnilptr => true
  | _ => false

/-- Embeds `getStructName` (identical in the V1 and V2 iterations): if the
value is not interface-nil, dereference one pointer level with
`reflectDeref`; if the reflected kind is `Struct` return the type name,
otherwise the sentinel string. -/
def getStructName (o : GoVal) : String :=
  if isInterfaceNil o = false then
    match o with
    | .vstruct nm _ _ => nm
    | _ => "<unknown>"
  else "<unknown>"

/-- Embeds `strings.Contains(v, " ")` from the string case of `writeField`. -/
def containsSpace (s : String) : Bool :=
  s.data.contains ' '

/-- Go truncated division, the semantics of `/` on Go integers; used by
`time.Duration.Microseconds` (division by 1000) and
`time.Duration.Milliseconds` (division by 1000000). -/
def goDiv (a b : Int) : Int :=
  a.tdiv b

/-- Models the `fmt` verb `%+v` used in the non-struct fallback branch of
`writeUnknownField`.  Inside `writeField` that branch is only reachable for
`vother` (every other constructor is matched by an earlier case of the type
switch or by the struct branch); `vother` carries its `%+v` text directly.
The remaining branches are given their `%+v` rendering where it is the plain
decimal/raw form, and are unreachable from `writeField`. -/
def goPlusV : GoVal → String
  | .vother r => r
  | .vstr s => s
  | .vint n => toString n
  | .vuint n => toString n
  | .vhex n => toString n
  | .vbool b => if b then "true" else "false"
  | .vdur ns => toString ns
  | .verr m => m
  | .vnil => "<nil>"
  | .vnilptr => "<nil>"
  | .vstruct _ _ _ => ""

/-- Renders a Nat in lowercase hexadecimal with the `0x` prefix, the output
of the `fmt` verb used for the `Hex32` case. -/
def goHex (n : Nat) : String :=
  "0x" ++ (Nat.toDigits 16 n).asString

namespace RenderV1

/-!
The field renderer of iteration V1 (part_002 lines 244-310): `writeField`
dispatches on the dynamic type of the payload value and `writeUnknownField`
renders a struct via reflection, honouring the `log` struct tag with the
`hide` sentinel.  Output written to the `io.Writer` is modelled as the
returned string.  `fieldLoop` embeds the `for i := 0; i < t.NumField(); i++`
loop of `writeUnknownField`: `addressable` is whether the reflected value was
reached through a pointer (`reflectDeref` of a pointer yields an addressable
value, so `CanSet` holds exactly for the exported fields; a struct payload
passed by value is not addressable and `CanSet` is false for every field).
The inter-field delimiter is written whenever the field index is not the last
one, regardless of which later fields actually render. -/

mutual

/-- Embeds V1 `writeField`. -/
def writeField (o : GoVal) (delim : String) : String :=
  if isInterfaceNil o then "<nil>"
  else
    match o with
    | .verr m => "'error: " ++ m ++ "'"
    | .vstr s => if containsSpace s then "'" ++ s ++ "'" else s
    | .vint n => toString n
    | .vuint n => toString n
    | .vhex n => goHex n
    | .vbool b => if b then "true" else "false"
    | .vdur ns => toString (goDiv ns 1000) ++ "ms"
    | o' => writeUnknownField o' delim
termination_by (sizeOf o, 1)

/-- Embeds V1 `writeUnknownField`. -/
def writeUnknownField (o : GoVal) (delim : String) : String :=
  if isInterfaceNil o = false then
    match o with
    | .vstruct _ isPtr fs => fieldLoop isPtr fs 0 fs.length delim
    | o' => goPlusV o'
  else "<nil>"
termination_by (sizeOf o, 0)

/-- Embeds the field loop of V1 `writeUnknownField` (index `i`, field count
`total`).  A field with tag value `hide` is skipped entirely (`continue`);
a found tag with a nonempty name replaces the declared field name; a found
empty tag prints no name prefix. -/
def fieldLoop (addressable : Bool) (fs : List GoField) (i total : Nat)
    (delim : String) : String :=
  match fs with
  | [] => ""
  | GoField.mk nm ex tg v :: rest =>
      (if addressable && ex then
        match tg with
        | some tnm =>
            if tnm = "hide" then ""
            else
              (if tnm = "" then "" else tnm ++ ":") ++
                writeField v delim ++
                (if i < total - 1 then delim else "")
        | none =>
            nm ++ ":" ++ writeField v delim ++
              (if i < total - 1 then delim else "")
      else "") ++ fieldLoop addressable rest (i + 1) total delim
termination_by (sizeOf fs, 0)

end

end RenderV1

namespace RenderV2

/-!
The field renderer of iteration V2 (part_002 lines 690-748).  It differs from
V1 in two places: the `time.Duration` case prints `v.Milliseconds()` (V1
prints `v.Microseconds()`), and `writeUnknownField` has no `hide` handling at
all (a found `log` tag is always printed as the field name, even if empty or
`hide`). -/

mutual

/-- Embeds V2 `writeField`. -/
def writeField (o : GoVal) (delim : String) : String :=
  if isInterfaceNil o then "<nil>"
  else
    match o with
    | .verr m => "'error: " ++ m ++ "'"
    | .vstr s => if containsSpace s then "'" ++ s ++ "'" else s
    | .vint n => toString n
    | .vuint n => toString n
    | .vhex n => goHex n
    | .vbool b => if b then "true" else "false"
    | .vdur ns => toString (goDiv ns 1000000) ++ "ms"
    | o' => writeUnknownField o' delim
termination_by (sizeOf o, 1)

/-- Embeds V2 `writeUnknownField`. -/
def writeUnknownField (o : GoVal) (delim : String) : String :=
  if isInterfaceNil o = false then
    match o with
    | .vstruct _ isPtr fs => fieldLoop isPtr fs 0 fs.length delim
    | o' => goPlusV o'
  else "<nil>"
termination_by (sizeOf o, 0)

/-- Embeds the field loop of V2 `writeUnknownField`. -/
def fieldLoop (addressable : Bool) (fs : List GoField) (i total : Nat)
    (delim : String) : String :=
  match fs with
  | [] => ""
  | GoField.mk nm ex tg v :: rest =>
      (if addressable && ex then
        (match tg with
         | some tnm => tnm ++ ":"
         | none => nm ++ ":") ++
          writeField v delim ++
          (if i < total - 1 then delim else "")
      else "") ++ fieldLoop addressable rest (i + 1) total delim
termination_by (sizeOf fs, 0)

end

end RenderV2

namespace LogV1

/-- Embeds the V1 `trace` record (part_002 lines 41-48) restricted to the
fields a claim mentions: the severity/kind tag, the payload slice, and the
`trace` flag set by the `Trace` entry point.  The `time`, `call` and `stack`
fields are filled from the environment (`time.Now`, `runtime.Caller`,
`runtime.Stack`) and no claim constrains them. -/
structure trace where
  kind : String
  data : List GoVal
  trace : Bool

/-- Embeds the V1 `Trace` entry point (part_002 lines 137-145): it builds a
trace whose kind is `getStructName` of the first payload value.  Go indexing
`a[0]` on an empty variadic slice panics, modelled as `none`. -/
def Trace (a : List GoVal) : Option trace :=
  match a with
  | [] => none
  | x :: _ => some { kind := getStructName x, data := a, trace := true }

/-- Kind projection of an optional trace, for evaluated statements. -/
def traceKind : Option trace → Option String :=
  Option.map trace.kind

end LogV1

namespace LogGo

/-- A Go `error` value, reduced to the message `Error()` returns. -/
structure GoError where
  msg : String
deriving DecidableEq

/-- The calendar fields of a `time.Time` used by `asString`. -/
structure GoTime where
  month : Nat
  day : Nat
  year : Nat
  hour : Nat
  minute : Nat
  second : Nat

/-- Embeds the `caller` record of log.go. -/
structure caller where
  Line : Nat
  Function : String
  File : String

/-- Embeds the `Trace` record of log.go (fields Kind, Build, Data, Stack,
Time, Caller, Error). -/
structure Trace where
  Kind : String
  Build : String
  Data : List GoVal
  Stack : String
  Time : GoTime
  Caller : caller
  Error : Option GoError

/-- Zero-padded two-digit decimal, the `fmt` verb used for date and time
components in `asString`. -/
def pad2 (n : Nat) : String :=
  if n < 10 then "0" ++ toString n else toString n

/-- Zero-padded four-digit decimal, the `fmt` verb used for the year. -/
def pad4 (n : Nat) : String :=
  if n < 10 then "000" ++ toString n
  else if n < 100 then "00" ++ toString n
  else if n < 1000 then "0" ++ toString n
  else toString n

/-- Modelled from the spec: `sliceAsString` is called by `asString` in log.go
but its definition is not under src (only the caller is present).  Per spec
section 4.1 the payload values are rendered by the field renderer and joined
with the delimiter, a single space for console-style output. -/
def sliceAsString (data : List GoVal) : String :=
  String.intercalate " " (data.map (fun o => RenderV1.writeField o " "))

/-- Embeds `Trace.asString` of log.go.  `pid` is the value of
`syscall.Getpid()`. -/
def asString (pid : Nat) (t : Trace) : String :=
  let source := t.Build ++ "(" ++ toString pid ++ "): " ++ t.Caller.File ++
    "(" ++ toString t.Caller.Line ++ "): " ++ t.Caller.Function
  let message := sliceAsString t.Data
  let message2 :=
    match t.Error with
    | some e => e.msg ++ ": " ++ message
    | none => message
  pad2 t.Time.month ++ "/" ++ pad2 t.Time.day ++ "/" ++ pad4 t.Time.year ++
    " " ++ pad2 t.Time.hour ++ ":" ++ pad2 t.Time.minute ++ ":" ++
    pad2 t.Time.second ++ ": [" ++ t.Kind ++ "] " ++ source ++ ": " ++ message2

/-- Embeds `Check` of log.go (lines 62-76) as the event it produces: with a
non-nil error it sends exactly one Trace of kind `error` carrying the error
on `_chTrace` and returns true; with a nil error it sends nothing and
returns false.  `now`, `call` and `stk` are the environment values of
`time.Now()`, `getCaller(2)` and `stack()`; `build` is the global `_build`. -/
def Check (now : GoTime) (call : caller) (build stk : String)
    (err : Option GoError) (a : List GoVal) : Bool × Option Trace :=
  match err with
  | some e =>
      (true, some { Kind := "error", Build := build, Data := a, Stack := stk,
                    Time := now, Caller := call, Error := some e })
  | none => (false, none)

/-- Embeds `Fail` of log.go (lines 79-92): with a non-nil error it sends
exactly one Trace of kind `error`; it always returns its error argument
unchanged. -/
def Fail (now : GoTime) (call : caller) (build stk : String)
    (err : Option GoError) (a : List GoVal) : Option GoError × Option Trace :=
  match err with
  | some e =>
      (some e, some { Kind := "error", Build := build, Data := a, Stack := stk,
                      Time := now, Caller := call, Error := some e })
  | none => (none, none)

end LogGo

/-- Result of a call that may terminate the process: `normal` is an ordinary
return, `halted` is a `panic` that unwinds with the given final logger
state. -/
inductive AssertRes (σ : Type) where
  | normal (s : σ)
  | halted (s : σ)
deriving DecidableEq

/-- An abstract queued event for the lifecycle models: an identifier (which
stands for the payload, caller and timestamp of the underlying Trace) and
its severity kind string. -/
structure Ev where
  id : Nat
  kind : String
deriving DecidableEq

namespace LogGoQ

/-!
Lifecycle/queue semantics of `log.go`: the global state is the buffered
channel `_chTrace` (nil-ness, closed-ness, FIFO contents), the file handle
`_file` (nil-ness), and the lines the consumer has written to the file and
the console.  `closeCalls` counts how many times `_file.Close()` has been
invoked.  `Option` results model calls that do not complete: per the Go
memory model a send on a nil channel blocks the calling goroutine forever.
-/

/-- Global logger state of log.go. -/
structure State where
  chNil : Bool
  chClosed : Bool
  queue : List Ev
  fileNil : Bool
  written : List Ev
  console : List Ev
  consoleFlag : Bool
  closeCalls : Nat
deriving DecidableEq

/-- State after a successful `StartLog` with a file path and console output
enabled: channel allocated (capacity 100), file open, consumer running. -/
def started : State :=
  { chNil := false, chClosed := false, queue := [], fileNil := false,
    written := [], console := [], consoleFlag := true, closeCalls := 0 }

/-- State when the logger was never started, or `StartLog` failed opening
the file: every global is still nil. -/
def uninit : State :=
  { chNil := true, chClosed := false, queue := [], fileNil := true,
    written := [], console := [], consoleFlag := false, closeCalls := 0 }

/-- Embeds `writeLog` of log.go (lines 208-219): console output when
`_console` is set or the kind is debug, then the file line when `_file` is
not nil.  (The `_onLog` callback is not modelled; no claim mentions it.) -/
def writeLog (e : Ev) (s : State) : State :=
  let s1 := if s.consoleFlag || e.kind == "debug"
            then { s with console := s.console ++ [e] } else s
  if s1.fileNil then s1 else { s1 with written := s1.written ++ [e] }

/-- A producer send `_chTrace <- t`.  `none` means the send does not
complete: forever if `_chTrace` is nil (send on a nil channel blocks the
goroutine forever) or if the channel was closed (panic); at full capacity
(100 buffered events) the producer waits for the consumer, which is the
designed backpressure. -/
def send (e : Ev) (s : State) : Option State :=
  if s.chNil then none
  else if s.chClosed then none
  else if s.queue.length < 100 then some { s with queue := s.queue ++ [e] }
  else none

/-- One iteration of `logRoutine` (lines 173-181): receive from the global
`_chTrace` and write the trace.  The loop reads the global on every
iteration, so once `CloseLog` has set it to nil the receive blocks forever
(`none`); an empty queue also gives no step until a producer sends. -/
def consume (s : State) : Option State :=
  if s.chNil then none
  else
    match s.queue with
    | [] => none
    | h :: t => some (writeLog h { s with queue := t })

/-- Embeds `CloseLog` of log.go (lines 184-193): close the channel and nil
the global, then close the file and nil the global.  It does not wait for
the consumer to drain the buffered events. -/
def CloseLog (s : State) : State :=
  let s1 := if s.chNil then s else { s with chClosed := true, chNil := true }
  if s1.fileNil then s1
  else { s1 with fileNil := true, closeCalls := s1.closeCalls + 1 }

/-- Embeds `Assert` of log.go (lines 95-108): with a false condition it
builds the assertion trace, calls `CloseLog`, and panics with the rendered
trace text.  The rendered event exists only as the panic value: neither
`writeConsole` nor the file sink receives it, and the queue is not
drained. -/
def Assert (cond : Bool) (s : State) : AssertRes State :=
  if cond then .normal s else .halted (CloseLog s)

/-- Embeds the lifecycle behaviour of `Info` (lines 122-130): an
unconditional send of an info trace. -/
def Info (i : Nat) (s : State) : Option State :=
  send { id := i, kind := "info" } s

/-- Embeds the lifecycle behaviour of `Warning`. -/
def Warning (i : Nat) (s : State) : Option State :=
  send { id := i, kind := "warning" } s

/-- Embeds the lifecycle behaviour of `Debug`. -/
def Debug (i : Nat) (s : State) : Option State :=
  send { id := i, kind := "debug" } s

/-- Embeds the lifecycle behaviour of `Check`: nil error returns false
without touching the channel; a non-nil error sends an error trace and
returns true. -/
def Check (err : Option LogGo.GoError) (i : Nat) (s : State) :
    Option (State × Bool) :=
  match err with
  | some _ => Option.map (fun s1 => (s1, true)) (send { id := i, kind := "error" } s)
  | none => some (s, false)

/-- Embeds the lifecycle behaviour of `Fail`: a non-nil error sends an error
trace; the error argument is returned unchanged. -/
def Fail (err : Option LogGo.GoError) (i : Nat) (s : State) :
    Option (State × Option LogGo.GoError) :=
  match err with
  | some _ => Option.map (fun s1 => (s1, err)) (send { id := i, kind := "error" } s)
  | none => some (s, none)

end LogGoQ

namespace LogV2

/-!
Lifecycle/queue semantics of iteration V2 (part_002 lines 426-860): a
buffered trace channel plus an unbuffered exit channel.  `CloseLog` (lines
607-623) first hands the exit signal to the consumer (which stops), then
itself drains every remaining buffered trace through `writeLog`, closes the
trace channel, closes the file, and nils the exit channel.  The V2 severity
string for debug is `dbg`.
-/

/-- Global logger state of iteration V2.  `chOpen` is `_chExit != nil` (and
the channels being allocated); `fileOpen` means the file handle is open and
accepting writes. -/
structure State where
  chOpen : Bool
  queue : List Ev
  fileOpen : Bool
  written : List Ev
  console : List Ev
  consoleFlag : Bool
  closeCalls : Nat
deriving DecidableEq

/-- State after a successful V2 `StartLog` with a file path and console
enabled. -/
def init : State :=
  { chOpen := true, queue := [], fileOpen := true, written := [],
    console := [], consoleFlag := true, closeCalls := 0 }

/-- Embeds V2 `writeLog` (lines 638-645): console when `_console` is set or
the kind is debug, then the file line when the file is open. -/
def writeLog (e : Ev) (s : State) : State :=
  let s1 := if s.consoleFlag || e.kind == "dbg"
            then { s with console := s.console ++ [e] } else s
  if s1.fileOpen then { s1 with written := s1.written ++ [e] } else s1

/-- The drain loop of V2 `CloseLog`: dequeue and `writeLog` every buffered
trace, front first. -/
def drain : List Ev → State → State
  | [], s => s
  | e :: rest, s => drain rest (writeLog e s)

/-- Embeds V2 `CloseLog` (lines 607-623): guarded by `_chExit != nil`; sends
the exit signal (the consumer stops), drains the whole queue to the sinks,
closes the trace channel, closes the file, and nils the exit channel.  The
second call finds `_chExit == nil` and does nothing. -/
def CloseLog (s : State) : State :=
  if s.chOpen then
    let s1 := drain s.queue { s with queue := [] }
    let s2 := if s1.fileOpen then
                { s1 with fileOpen := false, closeCalls := s1.closeCalls + 1 }
              else s1
    { s2 with chOpen := false }
  else s

/-- Embeds V2 `Assert` (lines 509-522): with a false condition it builds the
assertion trace, runs `CloseLog` (draining the queue and closing the file),
then writes the assertion trace with `writeConsole` only — the file is
already closed — and panics. -/
def Assert (a : Ev) (cond : Bool) (s : State) : AssertRes State :=
  if cond then .normal s
  else
    let s1 := CloseLog s
    .halted { s1 with console := s1.console ++ [a] }

/-- A scheduler action of the V2 system while the logger is open: a producer
enqueues a trace, or the consumer loop dequeues and writes one. -/
inductive Act where
  | enq (e : Ev)
  | consume
deriving DecidableEq

/-- Semantics of one action.  `none` means the action cannot fire in this
state (producer blocked at capacity, consumer waiting on an empty queue, or
the channels are gone). -/
def applyAct : Act → State → Option State
  | .enq e, s =>
      if s.chOpen = false then none
      else if s.queue.length < 100 then some { s with queue := s.queue ++ [e] }
      else none
  | .consume, s =>
      if s.chOpen = false then none
      else
        match s.queue with
        | [] => none
        | h :: t => some (writeLog h { s with queue := t })

/-- Runs a schedule of actions in order; `none` if some action cannot
fire. -/
def run : List Act → State → Option State
  | [], s => some s
  | a :: rest, s => (applyAct a s).bind (run rest)

/-- The events a schedule enqueues, in order. -/
def enqueuedOf : List Act → List Ev
  | [] => []
  | .enq e :: rest => e :: enqueuedOf rest
  | .consume :: rest => enqueuedOf rest

end LogV2

/-- Whether the reflected kind of a value (after the one pointer dereference
of `reflectDeref`) is `reflect.Struct`. -/
def isStructKind : GoVal → Bool
  | .vstruct _ _ _ => true
  | _ => false

/-- Projection facts about one `writeLog` step of the V2 consumer: it
touches only the sink transcripts, appending the event to the file
transcript exactly when the file is open. -/
theorem LogV2.writeLog_spec (e : Ev) (s : LogV2.State) :
    (LogV2.writeLog e s).chOpen = s.chOpen ∧
    (LogV2.writeLog e s).fileOpen = s.fileOpen ∧
    (LogV2.writeLog e s).queue = s.queue ∧
    (LogV2.writeLog e s).closeCalls = s.closeCalls ∧
    (LogV2.writeLog e s).written =
      (if s.fileOpen then s.written ++ [e] else s.written) := by
  unfold LogV2.writeLog
  by_cases h1 : s.consoleFlag || e.kind == "dbg" <;>
    by_cases h2 : s.fileOpen <;> simp [h1, h2]

/-- The V2 drain loop writes the whole queue, in order, to the file when the
file is open, and leaves the queue field and lifecycle flags alone. -/
theorem LogV2.drain_spec (q : List Ev) : ∀ (s : LogV2.State),
    s.fileOpen = true →
    (LogV2.drain q s).written = s.written ++ q ∧
    (LogV2.drain q s).fileOpen = true ∧
    (LogV2.drain q s).chOpen = s.chOpen ∧
    (LogV2.drain q s).queue = s.queue ∧
    (LogV2.drain q s).closeCalls = s.closeCalls := by
  induction q with
  | nil => intro s h; simp [LogV2.drain, h]
  | cons e rest ih =>
      intro s h
      have hw := LogV2.writeLog_spec e s
      have h2 : (LogV2.writeLog e s).fileOpen = true := by rw [hw.2.1]; exact h
      have hrec := ih (LogV2.writeLog e s) h2
      have hstep : LogV2.drain (e :: rest) s = LogV2.drain rest (LogV2.writeLog e s) := rfl
      refine ⟨?_, hrec.2.1, ?_, ?_, ?_⟩
      · rw [hstep, hrec.1, hw.2.2.2.2, if_pos h, List.append_assoc]
        rfl
      · rw [hstep, hrec.2.2.1, hw.1]
      · rw [hstep, hrec.2.2.2.1, hw.2.2.1]
      · rw [hstep, hrec.2.2.2.2, hw.2.2.2.1]

/-- What V2 `CloseLog` does to an open logger with an open file: the whole
queue is appended to the file transcript, then the file and the channels are
closed. -/
theorem LogV2.CloseLog_spec (s : LogV2.State)
    (ho : s.chOpen = true) (hf : s.fileOpen = true) :
    (LogV2.CloseLog s).written = s.written ++ s.queue ∧
    (LogV2.CloseLog s).queue = [] ∧
    (LogV2.CloseLog s).fileOpen = false ∧
    (LogV2.CloseLog s).chOpen = false := by
  have hd := LogV2.drain_spec s.queue { s with chOpen := true, queue := [] }
    (by simpa using hf)
  unfold LogV2.CloseLog
  simp only [ho, if_true]
  simp [hd.1, hd.2.1, hd.2.2.2.1]

/-- A second V2 `CloseLog` finds the exit channel nil and changes nothing. -/
theorem LogV2.CloseLog_chOpen_false (s : LogV2.State) :
    (LogV2.CloseLog s).chOpen = false := by
  unfold LogV2.CloseLog
  by_cases h : s.chOpen <;> simp [h]

/-- V2 `CloseLog` on a state whose channels are gone is the identity. -/
theorem LogV2.CloseLog_noop (s : LogV2.State) (h : s.chOpen = false) :
    LogV2.CloseLog s = s := by
  unfold LogV2.CloseLog
  simp [h]

/-- The events one action contributes to the queue. -/
theorem LogV2.applyAct_inv (a : LogV2.Act) (s0 s1 : LogV2.State)
    (hf : s0.fileOpen = true) (h : LogV2.applyAct a s0 = some s1) :
    s1.chOpen = s0.chOpen ∧ s1.fileOpen = s0.fileOpen ∧
    s1.written ++ s1.queue = s0.written ++ s0.queue ++ LogV2.enqueuedOf [a] := by
  cases a with
  | enq e =>
      simp only [LogV2.applyAct] at h
      split at h
      · exact Option.noConfusion h
      · split at h
        · injection h with h
          subst h
          simp [LogV2.enqueuedOf, List.append_assoc]
        · exact Option.noConfusion h
  | consume =>
      simp only [LogV2.applyAct] at h
      split at h
      · exact Option.noConfusion h
      · cases hq : s0.queue with
        | nil => rw [hq] at h; exact Option.noConfusion h
        | cons hd tl =>
            rw [hq] at h
            injection h with h
            subst h
            have hw := LogV2.writeLog_spec hd { s0 with queue := tl }
            refine ⟨by rw [hw.1], by rw [hw.2.1], ?_⟩
            rw [hw.2.2.1, hw.2.2.2.2]
            simp [hf, hq, LogV2.enqueuedOf]

/-- Running a schedule of producer/consumer actions from an open V2 logger
keeps it open and maintains the drain invariant: file transcript followed by
queue contents equals the original transcript plus every event enqueued so
far, in FIFO order. -/
theorem LogV2.run_inv (acts : List LogV2.Act) : ∀ (s0 s : LogV2.State),
    s0.chOpen = true → s0.fileOpen = true →
    LogV2.run acts s0 = some s →
    s.chOpen = true ∧ s.fileOpen = true ∧
    s.written ++ s.queue = s0.written ++ s0.queue ++ LogV2.enqueuedOf acts := by
  induction acts with
  | nil =>
      intro s0 s h1 h2 h
      cases h
      simp [LogV2.enqueuedOf, h1, h2]
  | cons a rest ih =>
      intro s0 s h1 h2 h
      have hrun : (LogV2.applyAct a s0).bind (LogV2.run rest) = some s := h
      cases ha : LogV2.applyAct a s0 with
      | none => rw [ha] at hrun; exact absurd hrun (by simp)
      | some s1 =>
          rw [ha] at hrun
          have hrest : LogV2.run rest s1 = some s := hrun
          have hstep := LogV2.applyAct_inv a s0 s1 h2 ha
          have hmain := ih s1 s (by rw [hstep.1]; exact h1)
            (by rw [hstep.2.1]; exact h2) hrest
          refine ⟨hmain.1, hmain.2.1, ?_⟩
          rw [hmain.2.2, hstep.2.2]
          cases a <;> simp [LogV2.enqueuedOf, List.append_assoc]

/-- `CloseLog` of log.go only flips the lifecycle globals: it never writes
anything to the file or console transcripts and never drains the queue, and
afterwards both `_chTrace` and `_file` are nil. -/
theorem LogGoQ.CloseLog_preserves (s : LogGoQ.State) :
    (LogGoQ.CloseLog s).written = s.written ∧
    (LogGoQ.CloseLog s).console = s.console ∧
    (LogGoQ.CloseLog s).queue = s.queue ∧
    (LogGoQ.CloseLog s).chNil = true ∧
    (LogGoQ.CloseLog s).fileNil = true := by
  unfold LogGoQ.CloseLog
  by_cases h1 : s.chNil <;> by_cases h2 : s.fileNil <;> simp [h1, h2]

/-- `CloseLog` of log.go does nothing when both globals are already nil. -/
theorem LogGoQ.CloseLog_noop_go (s : LogGoQ.State)
    (h1 : s.chNil = true) (h2 : s.fileNil = true) :
    LogGoQ.CloseLog s = s := by
  unfold LogGoQ.CloseLog
  simp [h1, h2]

/-- The state of log.go right after one event has been enqueued on the
freshly started logger. -/
def c1cexPre : LogGoQ.State := { LogGoQ.started with queue := [⟨1, "info"⟩] }

/-- Claim C1, counterexample: in log.go, after one successful enqueue on the
started logger, `CloseLog` returns with the file already closed and nothing
written to it, and the consumer can never deliver the buffered event
afterwards (its receive reads the now-nil global channel).  This is a legal
schedule (the consumer goroutine is simply not scheduled between the send
and the close), so the claim that every enqueued event reaches the file
before `close()` returns is false for log.go. -/
theorem c1_counterexample :
    LogGoQ.send ⟨1, "info"⟩ LogGoQ.started = some c1cexPre ∧
    (LogGoQ.CloseLog c1cexPre).written = [] ∧
    (LogGoQ.CloseLog c1cexPre).fileNil = true ∧
    LogGoQ.consume (LogGoQ.CloseLog c1cexPre) = none := by decide

/-- Claim C1 (amended): in the exit-channel iteration (part_002 V2), whose
`CloseLog` drains the queue itself, the property holds: for every schedule
of producer enqueues and consumer steps from a started logger, `CloseLog`
leaves the file transcript holding exactly the enqueued events in FIFO
order, the queue empty, and the file closed — log.go `CloseLog`, by
contrast, closes the channel and the file without waiting for the drain. -/
theorem c1_drain_completeness (acts : List LogV2.Act) (s : LogV2.State)
    (h : LogV2.run acts LogV2.init = some s) :
    (LogV2.CloseLog s).written = LogV2.enqueuedOf acts ∧
    (LogV2.CloseLog s).queue = [] ∧
    (LogV2.CloseLog s).fileOpen = false := by
  have hi := LogV2.run_inv acts LogV2.init s rfl rfl h
  have hc := LogV2.CloseLog_spec s hi.1 hi.2.1
  refine ⟨?_, hc.2.1, hc.2.2.1⟩
  rw [hc.1, hi.2.2]
  simp [LogV2.init]

/-- A concrete schedule: enqueue 1, enqueue 2, one consumer step, enqueue
3. -/
def c1wActs : List LogV2.Act :=
  [LogV2.Act.enq ⟨1, "inf"⟩, LogV2.Act.enq ⟨2, "inf"⟩, LogV2.Act.consume,
   LogV2.Act.enq ⟨3, "inf"⟩]

/-- The V2 state the schedule `c1wActs` reaches. -/
def c1wMid : LogV2.State :=
  { chOpen := true, queue := [⟨2, "inf"⟩, ⟨3, "inf"⟩], fileOpen := true,
    written := [⟨1, "inf"⟩], console := [⟨1, "inf"⟩], consoleFlag := true,
    closeCalls := 0 }

/-- Claim C1, witness: the drain theorem evaluated on the concrete schedule
`c1wActs`. -/
theorem c1_drain_completeness_witness :
    LogV2.run c1wActs LogV2.init = some c1wMid ∧
    ((LogV2.CloseLog c1wMid).written = LogV2.enqueuedOf c1wActs ∧
     (LogV2.CloseLog c1wMid).queue = [] ∧
     (LogV2.CloseLog c1wMid).fileOpen = false) :=
  ⟨by decide, c1_drain_completeness c1wActs c1wMid (by decide)⟩

/-- Claim C2: evaluation of the log.go entry points at the failing state.
While the logger is Uninitialized (never started, or `StartLog` failed, so
`_chTrace` is nil) — and equally after `CloseLog`, which nils the global —
`Check` with a non-nil error, `Fail` with a non-nil error, `Warning`,
`Info`, and `Debug` all send on the nil channel and therefore never return
(`none`), contradicting the claim that such calls return normally as safe
no-ops.  Only `Check`/`Fail` with a nil error return (they never touch the
channel). -/
theorem c2_uninitialized_calls_block :
    LogGoQ.Check (some ⟨"boom"⟩) 1 LogGoQ.uninit = none ∧
    LogGoQ.Fail (some ⟨"boom"⟩) 2 LogGoQ.uninit = none ∧
    LogGoQ.Info 3 LogGoQ.uninit = none ∧
    LogGoQ.Warning 4 LogGoQ.uninit = none ∧
    LogGoQ.Debug 5 LogGoQ.uninit = none ∧
    LogGoQ.Info 6 (LogGoQ.CloseLog LogGoQ.started) = none ∧
    LogGoQ.Check none 7 LogGoQ.uninit = some (LogGoQ.uninit, false) ∧
    LogGoQ.Fail none 8 LogGoQ.uninit = some (LogGoQ.uninit, none) := by decide

/-- The state of log.go with one buffered event, before an assertion. -/
def c3cexPre : LogGoQ.State := { LogGoQ.started with queue := [⟨7, "info"⟩] }

/-- Claim C3, counterexample: in log.go, `Assert(false, ...)` with one event
still buffered terminates with the file closed, the buffered event never
written, and the assertion event on neither the console nor the file
transcript (it exists only as the panic value). -/
theorem c3_counterexample :
    LogGoQ.Assert false c3cexPre = AssertRes.halted (LogGoQ.CloseLog c3cexPre) ∧
    (LogGoQ.CloseLog c3cexPre).written = [] ∧
    (LogGoQ.CloseLog c3cexPre).console = [] ∧
    (LogGoQ.CloseLog c3cexPre).fileNil = true := by decide

/-- Claim C3 (amended): `Assert(false, ...)` shuts the logger down and
terminates the process by panic.  In log.go nothing reaches the sinks: the
transcripts are unchanged and the file is closed without draining.  In the
exit-channel iteration, `CloseLog` first drains every previously enqueued
event to the file in FIFO order, the file then closes, and the assertion
event itself is written synchronously to the console only (the file is
already closed when `writeConsole` runs). -/
theorem c3_assert_behaviour (g : LogGoQ.State) (v : LogV2.State) (a : Ev)
    (ho : v.chOpen = true) (hf : v.fileOpen = true) :
    (LogGoQ.Assert false g = AssertRes.halted (LogGoQ.CloseLog g) ∧
     (LogGoQ.CloseLog g).written = g.written ∧
     (LogGoQ.CloseLog g).console = g.console ∧
     (LogGoQ.CloseLog g).fileNil = true) ∧
    ∃ v2, LogV2.Assert a false v = AssertRes.halted v2 ∧
      v2.written = v.written ++ v.queue ∧
      (∃ c, v2.console = c ++ [a]) ∧
      v2.fileOpen = false ∧ v2.chOpen = false := by
  have hp := LogGoQ.CloseLog_preserves g
  have hc := LogV2.CloseLog_spec v ho hf
  refine ⟨⟨rfl, hp.1, hp.2.1, hp.2.2.2.2⟩, ?_⟩
  refine ⟨{ LogV2.CloseLog v with
            console := (LogV2.CloseLog v).console ++ [a] }, rfl, ?_,
    ⟨(LogV2.CloseLog v).console, rfl⟩, ?_, ?_⟩
  · simpa using hc.1
  · simpa using hc.2.2.1
  · simpa using hc.2.2.2

/-- A started V2 logger with one buffered event, before an assertion. -/
def c3wPre : LogV2.State := { LogV2.init with queue := [⟨5, "inf"⟩] }

/-- Claim C3, witness: the amended assertion theorem evaluated at concrete
states. -/
theorem c3_assert_behaviour_witness :
    c3wPre.chOpen = true ∧ c3wPre.fileOpen = true ∧
    (∃ v2, LogV2.Assert ⟨9, "assert"⟩ false c3wPre = AssertRes.halted v2 ∧
      v2.written = c3wPre.written ++ c3wPre.queue ∧
      (∃ c, v2.console = c ++ [⟨9, "assert"⟩]) ∧
      v2.fileOpen = false ∧ v2.chOpen = false) :=
  ⟨rfl, rfl,
    (c3_assert_behaviour LogGoQ.started c3wPre ⟨9, "assert"⟩ rfl rfl).2⟩

/-- Claim C4: `Check` in log.go returns false and produces no event for a
nil error; for a non-nil error it returns true and produces exactly one
trace of Error severity, and the rendered line of that trace contains the
error message. -/
theorem c4_check_spec (now : LogGo.GoTime) (call : LogGo.caller)
    (build stk : String) (e : LogGo.GoError) (a : List GoVal) (pid : Nat) :
    LogGo.Check now call build stk none a = (false, none) ∧
    (LogGo.Check now call build stk (some e) a).1 = true ∧
    ∃ tr, (LogGo.Check now call build stk (some e) a).2 = some tr ∧
      tr.Kind = "error" ∧
      ∃ p q, LogGo.asString pid tr = p ++ e.msg ++ q := by
  refine ⟨rfl, rfl, ?_⟩
  refine ⟨_, rfl, rfl, ?_⟩
  refine ⟨LogGo.pad2 now.month ++ "/" ++ LogGo.pad2 now.day ++ "/" ++
    LogGo.pad4 now.year ++ " " ++ LogGo.pad2 now.hour ++ ":" ++
    LogGo.pad2 now.minute ++ ":" ++ LogGo.pad2 now.second ++ ": [" ++
    "error" ++ "] " ++ (build ++ "(" ++ toString pid ++ "): " ++ call.File ++
    "(" ++ toString call.Line ++ "): " ++ call.Function) ++ ": ",
    ": " ++ LogGo.sliceAsString a, ?_⟩
  simp [LogGo.asString, String.append_assoc]

/-- Claim C5: `Fail` in log.go is a pass-through: a nil error returns nil
and produces no event, a non-nil error is returned unchanged and produces
exactly one trace of Error severity carrying that error. -/
theorem c5_fail_pass_through (now : LogGo.GoTime) (call : LogGo.caller)
    (build stk : String) (e : LogGo.GoError) (a : List GoVal) :
    LogGo.Fail now call build stk none a = (none, none) ∧
    (LogGo.Fail now call build stk (some e) a).1 = some e ∧
    ∃ tr, (LogGo.Fail now call build stk (some e) a).2 = some tr ∧
      tr.Kind = "error" ∧ tr.Error = some e :=
  ⟨rfl, rfl, ⟨_, rfl, rfl, rfl⟩⟩

/-- Claim C6: calling `CloseLog` a second time after a completed `CloseLog`
is a no-op, in log.go (the nil guards on `_chTrace` and `_file` both fail,
so nothing happens — in particular `closeCalls`, the number of
`_file.Close()` invocations, does not grow) and in the exit-channel
iteration (the guard on `_chExit` fails). -/
theorem c6_second_close_noop (g : LogGoQ.State) (v : LogV2.State) :
    LogGoQ.CloseLog (LogGoQ.CloseLog g) = LogGoQ.CloseLog g ∧
    LogV2.CloseLog (LogV2.CloseLog v) = LogV2.CloseLog v :=
  ⟨LogGoQ.CloseLog_noop_go _ (LogGoQ.CloseLog_preserves g).2.2.2.1
      (LogGoQ.CloseLog_preserves g).2.2.2.2,
   LogV2.CloseLog_noop _ (LogV2.CloseLog_chOpen_false v)⟩

/-- Claim C7: evaluation at the failing input.  For the duration of one
millisecond (1000000 ns), the V1 `writeField` prints `1000ms` — it feeds
`v.Microseconds()` to the `%dms` format — while the claim (and the V2
renderer, which prints `v.Milliseconds()`) gives `1ms`.  The `ms` suffix
with a microsecond count shows the V1 line is a slip. -/
theorem c7_duration_rendering :
    RenderV1.writeField (GoVal.vdur 1000000) "\t" = "1000ms" ∧
    RenderV1.writeField (GoVal.vdur 1000000) "\t" ≠ "1ms" ∧
    RenderV2.writeField (GoVal.vdur 1000000) "\t" = "1ms" := by
  have h1 : RenderV1.writeField (GoVal.vdur 1000000) "\t" = "1000ms" := by
    simp [RenderV1.writeField, isInterfaceNil, goDiv] <;> rfl
  have h2 : RenderV2.writeField (GoVal.vdur 1000000) "\t" = "1ms" := by
    simp [RenderV2.writeField, isInterfaceNil, goDiv] <;> rfl
  exact ⟨h1, by rw [h1]; decide, h2⟩

/-- The example payload of claim C8: a pointer to a struct with fields
`Name = "a b"` (no tag) and `Count = 3` carrying the display override
`log:"hide"`. -/
def c8payload : GoVal :=
  GoVal.vstruct "hideExample" true
    [GoField.mk "Name" true none (GoVal.vstr "a b"),
     GoField.mk "Count" true (some "hide") (GoVal.vint 3)]

/-- Claim C8, counterexample: the V1 renderer on the example payload with
the file delimiter yields `Name:'a b'` followed by a trailing tab, not
exactly `Name:'a b'`: the loop prints the delimiter after every non-final
field index before it knows whether the later fields render. -/
theorem c8_counterexample :
    RenderV1.writeField c8payload "\t" = "Name:'a b'\t" ∧
    RenderV1.writeField c8payload "\t" ≠ "Name:'a b'" := by
  have h1 : RenderV1.writeField c8payload "\t" = "Name:'a b'\t" := by
    simp [c8payload, RenderV1.writeField, RenderV1.writeUnknownField,
      RenderV1.fieldLoop, isInterfaceNil, containsSpace] <;> rfl
  exact ⟨h1, by rw [h1]; decide⟩

/-- Claim C8 (amended): the renderer omits the hidden field entirely (name
and value), but the inter-field delimiter is emitted positionally after
each rendered field whose index is not the last, so with the hidden field
in last position the output is `Name:'a b'` followed by exactly one
delimiter, for every delimiter. -/
theorem c8_hide_trailing_delimiter (d : String) :
    RenderV1.writeField c8payload d = "Name:'a b'" ++ d := by
  rw [show ("Name:'a b'" : String) = "Name" ++ (":" ++ "'a b'") from rfl]
  simp [c8payload, RenderV1.writeField, RenderV1.writeUnknownField,
    RenderV1.fieldLoop, isInterfaceNil, containsSpace, String.append_assoc]

/-- On an unaddressable reflected struct value (a struct payload passed by
value), `CanSet` is false for every field and the V1 field loop prints
nothing. -/
theorem RenderV1.fieldLoop_unaddressable (fs : List GoField) :
    ∀ (i total : Nat) (d : String), RenderV1.fieldLoop false fs i total d = "" := by
  induction fs with
  | nil => intro i total d; simp [RenderV1.fieldLoop]
  | cons f rest ih =>
      intro i total d
      cases f with
      | mk nm ex tg v => cases tg <;> simp [RenderV1.fieldLoop, ih]

/-- On an unaddressable reflected struct value, the V2 field loop prints
nothing. -/
theorem RenderV2.fieldLoop_unaddressable_v2 (fs : List GoField) :
    ∀ (i total : Nat) (d : String), RenderV2.fieldLoop false fs i total d = "" := by
  induction fs with
  | nil => intro i total d; simp [RenderV2.fieldLoop]
  | cons f rest ih =>
      intro i total d
      cases f with
      | mk nm ex tg v => cases tg <;> simp [RenderV2.fieldLoop, ih]

/-- A pointer to a struct with the single exported untagged field
`Name = "x"`. -/
def c9ptrPayload : GoVal :=
  GoVal.vstruct "pointerExample" true
    [GoField.mk "Name" true none (GoVal.vstr "x")]

/-- Claim C9: a struct payload passed by value reaches the renderer as an
unaddressable reflected value, `CanSet` is false for every field, and no
field token at all is emitted — in both renderer iterations, for every
struct name, field list and delimiter; a pointer-to-struct payload, by
contrast, has its exported fields rendered (shown on a one-field
example). -/
theorem c9_byvalue_struct_renders_nothing (nm : String) (fs : List GoField)
    (d : String) :
    RenderV1.writeField (GoVal.vstruct nm false fs) d = "" ∧
    RenderV2.writeField (GoVal.vstruct nm false fs) d = "" ∧
    RenderV1.writeField c9ptrPayload d = "Name:x" := by
  refine ⟨?_, ?_, ?_⟩
  · simp [RenderV1.writeField, RenderV1.writeUnknownField, isInterfaceNil,
      RenderV1.fieldLoop_unaddressable]
  · simp [RenderV2.writeField, RenderV2.writeUnknownField, isInterfaceNil,
      RenderV2.fieldLoop_unaddressable_v2]
  · rw [show ("Name:x" : String) = "Name" ++ (":" ++ "x") from rfl]
    simp [c9ptrPayload, RenderV1.writeField, RenderV1.writeUnknownField,
      RenderV1.fieldLoop, isInterfaceNil, containsSpace, String.append_assoc]

/-- Claim C10: the V1 `Trace` entry point tags the event with
`getStructName` of the first payload value, which is the literal
`<unknown>` whenever that value is interface-nil (nil or a nil pointer) or
not of struct kind after the one pointer dereference. -/
theorem c10_trace_unknown_kind (v : GoVal) (vs : List GoVal)
    (h : isInterfaceNil v = true ∨ isStructKind v = false) :
    LogV1.traceKind (LogV1.Trace (v :: vs)) = some "<unknown>" := by
  cases v <;>
    simp [LogV1.traceKind, LogV1.Trace, getStructName, isInterfaceNil] <;>
    simp [isInterfaceNil, isStructKind] at h

/-- Claim C10, witness: the theorem evaluated at a nil first payload. -/
theorem c10_trace_unknown_kind_witness :
    (isInterfaceNil GoVal.vnil = true ∨ isStructKind GoVal.vnil = false) ∧
    LogV1.traceKind (LogV1.Trace [GoVal.vnil]) = some "<unknown>" :=
  ⟨Or.inl rfl, c10_trace_unknown_kind GoVal.vnil [] (Or.inl rfl)⟩
